import Mathlib

/-!
Verification of the stream/detector orchestration core of the `model_control`
repository (`src/app/realtime_ai/`): the `RealtimeAIService` frame loop and
state machine (`service.py`), the bounded drop-oldest result sink
(`asyncio.Queue` usage in `_detection_loop`), the stream-provider factory
(`core/factory.py`), the multi-GPU least-loaded device scheduler
(`detectors/multi_gpu_detector.py`), the per-provider frame iterators
(`streams/rtsp_provider.py`, `streams/file_provider.py`) and batch detection
(`detectors/yolo_detector.py`).

The embedding is shallow: Python objects become Lean structures, the
`async` loop becomes explicit state passing over the list of frames the
stream yields, detector inference is a parameter
`detect : Frame → Nat → Except String DetectionResult` (the external
neural-network call), wall-clock timing (FPS throttling, timestamps,
processing-time statistics) is abstracted to constant values since no claim
depends on real time, and `loguru` logging is dropped.
-/

namespace RealtimeAI

/-- `ServiceStatus` enumeration from `service.py` (IDLE/STARTING/RUNNING/STOPPING/ERROR). -/
inductive ServiceStatus where
  | idle
  | starting
  | running
  | stopping
  | error
deriving DecidableEq, Repr

/-- `StreamProtocol` enumeration from `core/base.py`. -/
inductive StreamProtocol where
  | rtsp
  | rtmp
  | http
  | https
  | file
deriving DecidableEq, Repr

/-- A decoded video frame (`np.ndarray` in the code): the claims only observe
its shape (`frame.shape[1]` = width, `frame.shape[0]` = height), so the raw
pixel buffer is abstracted to an opaque `Nat` token. -/
structure Frame where
  width : Nat
  height : Nat
  pixels : Nat
deriving DecidableEq, Repr, Inhabited

/-- `BoundingBox` dataclass from `core/base.py`; the Python floats are
embedded as rationals. -/
structure BoundingBox where
  x1 : Rat
  y1 : Rat
  x2 : Rat
  y2 : Rat
deriving DecidableEq, Repr

/-- `Detection` dataclass from `core/base.py` (the `additional_info` map is
derived data and not observed by any claim). -/
structure Detection where
  bbox : BoundingBox
  confidence : Rat
  class_id : Nat
  class_name : String
deriving DecidableEq, Repr

/-- `DetectionResult` dataclass from `core/base.py`. `model_info` is a
free-form dict; the only key any claim observes is the `"error"` entry that
`detect_batch` writes for failed items, so the dict is embedded as that
optional entry. Timestamps and processing times are abstracted (no claim
reads them). -/
structure DetectionResult where
  frame_id : Nat
  timestamp : Nat
  detections : List Detection
  frame_width : Nat
  frame_height : Nat
  processing_time_ms : Nat
  model_info_error : Option String
deriving DecidableEq, Repr

/-- The result sink push from `service.py` lines 247-256: `put_nowait` into
the bounded `asyncio.Queue`; on `QueueFull` (`maxsize > 0` and the queue at
capacity) `get_nowait` discards the oldest entry (queue head) and the new
result is inserted at the back.  `asyncio.Queue(maxsize=0)` is unbounded, so
`cap = 0` always appends. -/
def queue_put_drop (cap : Nat) (q : List DetectionResult) (r : DetectionResult) :
    List DetectionResult :=
  if cap = 0 ∨ q.length < cap then q ++ [r]
  else q.drop 1 ++ [r]

/-- The mutable state of one `RealtimeAIService` (`service.py`), together
with the state of its owned detector (`_is_loaded`) and stream provider
(`_is_connected`).  `pushed` is a ghost observation trace recording every
result ever pushed into the sink, in push order; it is not program state and
no modelled operation reads it. -/
structure ServiceState where
  status : ServiceStatus
  is_running : Bool
  detector_loaded : Bool
  stream_connected : Bool
  has_task : Bool
  frame_count : Nat
  processed_frame_count : Nat
  error_count : Nat
  results_queue : List DetectionResult
  result_buffer_size : Nat
  skip_frames : Nat
  pushed : List DetectionResult
deriving DecidableEq, Repr

/-- `RealtimeAIService.start_detection` (`service.py` lines 102-145).
`load_ok` / `connect_ok` model the outcomes of the external
`detector.load_model()` and `stream_provider.connect()` calls.  Returns the
state after the call and `some msg` when the call raises
`RealtimeAIException`.  When already RUNNING the method logs a warning and
returns at once.  Otherwise: status STARTING, load the model if not loaded
(failure → status ERROR and raise), connect the stream if not connected
(failure → status ERROR and raise), drain the results queue, reset the
counters, spawn the loop task, set `_is_running`, status RUNNING. -/
def start_detection (load_ok connect_ok : Bool) (st : ServiceState) :
    ServiceState × Option String :=
  if st.status = ServiceStatus.running then (st, none)
  else
    let st1 := { st with status := ServiceStatus.starting }
    if ¬ st1.detector_loaded ∧ ¬ load_ok then
      ({ st1 with status := ServiceStatus.error }, some "Failed to start detection")
    else
      let st2 := { st1 with detector_loaded := true }
      if ¬ st2.stream_connected ∧ ¬ connect_ok then
        ({ st2 with status := ServiceStatus.error }, some "Failed to start detection")
      else
        ({ st2 with
            stream_connected := true
            results_queue := []
            frame_count := 0
            processed_frame_count := 0
            error_count := 0
            has_task := true
            is_running := true
            status := ServiceStatus.running }, none)

/-- `RealtimeAIService.stop_detection` (`service.py` lines 147-176).  When
the status is anything but RUNNING the method logs a warning and returns at
once.  Otherwise: status STOPPING, cancel the loop task, clear
`_is_running`, disconnect the stream if connected, status IDLE.  The
cancellation and the providers' `disconnect` swallow their own errors, so
the normal path never raises. -/
def stop_detection (st : ServiceState) : ServiceState × Option String :=
  if st.status ≠ ServiceStatus.running then (st, none)
  else
    let st1 := { st with status := ServiceStatus.stopping }
    let st2 := { st1 with has_task := false, is_running := false }
    let st3 :=
      if st2.stream_connected then { st2 with stream_connected := false } else st2
    ({ st3 with status := ServiceStatus.idle }, none)

/-- The fields of the `get_performance_stats` dict (`service.py` lines
355-373) that are derived from counters; the wall-clock fields
(`runtime_seconds`, FPS and processing-time statistics) are abstracted away.
`frames_skipped` is the Python integer subtraction
`self._frame_count - self._processed_frame_count`. -/
structure PerfStats where
  total_frames_received : Nat
  frames_processed : Nat
  frames_skipped : Int
  error_count : Nat
  results_queue_size : Nat
  results_queue_max_size : Nat
deriving DecidableEq, Repr

/-- `RealtimeAIService.get_performance_stats` (`service.py` lines 355-373),
restricted to the counter-derived fields. -/
def get_performance_stats (st : ServiceState) : PerfStats :=
  { total_frames_received := st.frame_count
    frames_processed := st.processed_frame_count
    frames_skipped := (st.frame_count : Int) - (st.processed_frame_count : Int)
    error_count := st.error_count
    results_queue_size := st.results_queue.length
    results_queue_max_size := st.result_buffer_size }

/-- One iteration of `RealtimeAIService._detection_loop` (`service.py` lines
210-285) on one frame yielded by the stream iterator.  `skipCtr` is the
loop-local `frame_skip_counter`.  Returns the new state, the new skip
counter, and `true` when the loop continues to the next frame (`false` = the
loop `break`s).  The body: bail out if `_is_running` was cleared; increment
`_frame_count`; when `skip_frames > 0` skip this frame on the fixed cadence;
(the `max_fps` throttle only sleeps and is timing, not state); call
`detector.detect_frame(frame, self._frame_count)`; on success increment
`_processed_frame_count` and push the result into the bounded queue
(drop-oldest); on failure increment `_error_count` and `break` once
`_error_count > 10`.  Note the loop never touches `self.status`. -/
def detection_iteration (detect : Frame → Nat → Except String DetectionResult)
    (st : ServiceState) (skipCtr : Nat) (frame : Frame) :
    (ServiceState × Nat) × Bool :=
  if st.is_running = false then ((st, skipCtr), false)
  else
    let st := { st with frame_count := st.frame_count + 1 }
    let go : ServiceState → Nat → (ServiceState × Nat) × Bool := fun st skipCtr =>
      match detect frame st.frame_count with
      | Except.ok r =>
          (({ st with
                processed_frame_count := st.processed_frame_count + 1
                results_queue := queue_put_drop st.result_buffer_size st.results_queue r
                pushed := st.pushed ++ [r] }, skipCtr), true)
      | Except.error _ =>
          let st := { st with error_count := st.error_count + 1 }
          ((st, skipCtr), decide (st.error_count ≤ 10))
    if 0 < st.skip_frames then
      if skipCtr + 1 ≤ st.skip_frames then ((st, skipCtr + 1), true)
      else go st 0
    else go st skipCtr

/-- `RealtimeAIService._detection_loop` run over the finite list of frames
the stream iterator yields, threading the loop-local `frame_skip_counter`.
The returned flag is `true` when the loop exited by `break` (further frames,
if any, are never read). -/
def detection_loop_aux (detect : Frame → Nat → Except String DetectionResult) :
    ServiceState → Nat → List Frame → ServiceState × Bool
  | st, _, [] => (st, false)
  | st, c, f :: fs =>
    match detection_iteration detect st c f with
    | ((st', c'), true) => detection_loop_aux detect st' c' fs
    | ((st', _), false) => (st', true)

/-- `_detection_loop` entry point: `frame_skip_counter = 0`. -/
def detection_loop (detect : Frame → Nat → Except String DetectionResult)
    (st : ServiceState) (frames : List Frame) : ServiceState × Bool :=
  detection_loop_aux detect st 0 frames

/-! ### Registry/Factory: protocol auto-detection (`core/factory.py`) -/

/-- The scheme literals tested by
`StreamProviderFactory._detect_protocol_from_url`; URLs are embedded as
`List Char` (`url.lower()` becomes `List.map Char.toLower`). -/
def rtspScheme : List Char := ['r', 't', 's', 'p', ':', '/', '/']

def rtmpScheme : List Char := ['r', 't', 'm', 'p', ':', '/', '/']

def httpScheme : List Char := ['h', 't', 't', 'p', ':', '/', '/']

def httpsScheme : List Char := ['h', 't', 't', 'p', 's', ':', '/', '/']

def fileScheme : List Char := ['f', 'i', 'l', 'e', ':', '/', '/']

/-- The FILE test of `_detect_protocol_from_url` line 98:
`url_lower.startswith('file://') or '/' in url_lower or '\\' in url_lower`. -/
def is_path_like (u : List Char) : Bool :=
  fileScheme.isPrefixOf u || u.contains '/' || u.contains '\\'

/-- `StreamProviderFactory._detect_protocol_from_url` (`core/factory.py`
lines 85-104).  `Except.error` carries the URL, modelling the
`ConfigurationException` message "Unable to detect protocol from URL: {url}"
that names the URL. -/
def detect_protocol_from_url (url : List Char) : Except (List Char) StreamProtocol :=
  let url_lower := url.map Char.toLower
  if rtspScheme.isPrefixOf url_lower then Except.ok StreamProtocol.rtsp
  else if rtmpScheme.isPrefixOf url_lower then Except.ok StreamProtocol.rtmp
  else if httpScheme.isPrefixOf url_lower then Except.ok StreamProtocol.http
  else if httpsScheme.isPrefixOf url_lower then Except.ok StreamProtocol.https
  else if is_path_like url_lower then Except.ok StreamProtocol.file
  else Except.error url

/-! ### Multi-GPU device scheduler (`detectors/multi_gpu_detector.py`) -/

/-- Python `min(gpu_devices, key=lambda d: inference_counts.get(d, 0))`
(`multi_gpu_detector.py` line 174): the first element of the list attaining
the minimal key.  Python raises `ValueError` on an empty list; that
unreachable case (models loaded on no device) is embedded as `0`. -/
def py_min_by (key : Nat → Nat) : List Nat → Nat
  | [] => 0
  | d :: ds => ds.foldl (fun best x => if key x < key best then x else best) d

/-- `MultiGPUYOLOv11Detector._select_device_for_inference`
(`multi_gpu_detector.py` lines 167-179).  `inference_counts` is the
per-device cumulative counter dict with default 0 (`.get(d, 0)`). -/
def select_device_for_inference (enable_multi_gpu load_balancing : Bool)
    (gpu_devices : List Nat) (inference_counts : Nat → Nat) (stream_id : Nat) : Nat :=
  if ¬ enable_multi_gpu ∨ gpu_devices.length = 1 then gpu_devices.headD 0
  else if load_balancing then py_min_by inference_counts gpu_devices
  else gpu_devices.getD (stream_id % gpu_devices.length) 0

/-- The effect of one `MultiGPUYOLOv11Detector.detect_frame` call
(`multi_gpu_detector.py` lines 181-219) on the `inference_counts` dict:
the device is chosen by `_select_device_for_inference(stream_id)`, and
`inference_counts[device_id]` is incremented only when the dispatched
inference returns without raising (`ok = true`); a raising inference leaves
every counter unchanged. -/
def multi_gpu_dispatch (enable_multi_gpu load_balancing : Bool) (gpu_devices : List Nat)
    (inference_counts : Nat → Nat) (stream_id : Nat) (ok : Bool) : Nat → Nat :=
  let d := select_device_for_inference enable_multi_gpu load_balancing gpu_devices
    inference_counts stream_id
  if ok then fun x => if x = d then inference_counts x + 1 else inference_counts x
  else inference_counts

/-- A sequence of `detect_frame` dispatches, each given by its `stream_id`
argument and whether the inference succeeded, folded over the counter
state. -/
def run_dispatches (enable_multi_gpu load_balancing : Bool) (gpu_devices : List Nat) :
    (Nat → Nat) → List (Nat × Bool) → (Nat → Nat)
  | counts, [] => counts
  | counts, (sid, ok) :: jobs =>
    run_dispatches enable_multi_gpu load_balancing gpu_devices
      (multi_gpu_dispatch enable_multi_gpu load_balancing gpu_devices counts sid ok) jobs

/-! ### Stream provider frame iterators (`streams/`) -/

/-- `RTSPStreamProvider.get_frame_iterator` (`rtsp_provider.py` lines
131-153) over the finite list of `get_frame()` outcomes the connected
capture produces (`some frame` = successful read, `none` = failed read; the
exception path of the iterator increments the same counter as the
`None`-return path and is merged with it).  The first argument is
`config.retry_attempts`, the second the running `retry_count`: the `while`
guard requires `retry_count < retry_attempts`, a successful read resets
`retry_count` to 0 and yields the frame, a failed read increments it and
`break`s once `retry_count >= retry_attempts`. -/
def rtsp_frame_iterate (retry_attempts : Nat) : Nat → List (Option Frame) → List Frame
  | _, [] => []
  | retry_count, r :: reads =>
    if retry_attempts ≤ retry_count then []
    else
      match r with
      | some f => f :: rtsp_frame_iterate retry_attempts 0 reads
      | none =>
        if retry_attempts ≤ retry_count + 1 then []
        else rtsp_frame_iterate retry_attempts (retry_count + 1) reads

/-- `FileStreamProvider.get_frame_iterator` (`file_provider.py` lines
176-190) over the finite list of `get_frame()` outcomes: a `None` read
(end of file or read error) `break`s immediately unless `_loop_playback`
is set — there is no retry counter. -/
def file_frame_iterate (loop_playback : Bool) : List (Option Frame) → List Frame
  | [] => []
  | some f :: reads => f :: file_frame_iterate loop_playback reads
  | none :: reads =>
    if loop_playback then file_frame_iterate loop_playback reads else []

/-- Predicate on a read sequence: starting from retry counter `r`, no run of
consecutive failed reads ever drives the counter up to `a`
(= `retry_attempts`).  Under it the RTSP iterator never terminates early. -/
def no_long_fail_run (a : Nat) : Nat → List (Option Frame) → Bool
  | _, [] => true
  | _, some _ :: reads => no_long_fail_run a 0 reads
  | r, none :: reads => decide (r + 1 < a) && no_long_fail_run a (r + 1) reads

/-! ### Batch detection (`detectors/yolo_detector.py` lines 352-388,
`detectors/multi_gpu_detector.py` lines 269-312) -/

/-- The synthetic empty-detections result `detect_batch` builds for a frame
whose `detect_frame` task raised: `frame_id=frame_ids[i]`, no detections,
`frame_width/height` from `frames[i].shape` guarded by `i < len(frames)`,
and `model_info={"error": str(result)}`. -/
def synth_failed_result (frames : List Frame) (ids : List Nat) (i : Nat) (e : String) :
    DetectionResult :=
  { frame_id := ids.getD i 0
    timestamp := 0
    detections := []
    frame_width := if i < frames.length then (frames.getD i default).width else 0
    frame_height := if i < frames.length then (frames.getD i default).height else 0
    processing_time_ms := 0
    model_info_error := some e }

/-- The `asyncio.gather(*tasks, return_exceptions=True)` phase of
`detect_batch`: one `detect_frame` task per `zip(frames, frame_ids)` pair,
results kept in task order, exceptions captured per item. -/
def gather_results (detect : Frame → Nat → Except String DetectionResult)
    (frames : List Frame) (ids : List Nat) : List (Except String DetectionResult) :=
  (frames.zip ids).map (fun p => detect p.1 p.2)

/-- The `for i, result in enumerate(results)` phase of `detect_batch`:
successful results pass through, captured exceptions are replaced by the
synthetic empty result for index `i`. -/
def fix_results (frames : List Frame) (ids : List Nat) :
    Nat → List (Except String DetectionResult) → List DetectionResult
  | _, [] => []
  | i, Except.ok r :: rest => r :: fix_results frames ids (i + 1) rest
  | i, Except.error e :: rest =>
    synth_failed_result frames ids i e :: fix_results frames ids (i + 1) rest

/-- `YOLOv11Detector.detect_batch` (and the structurally identical
exception-handling of `MultiGPUYOLOv11Detector.detect_batch`, whose
`stream_ids` argument only routes each per-frame task to a device inside
`detect`): gather per-item outcomes, then isolate failures per item. -/
def detect_batch (detect : Frame → Nat → Except String DetectionResult)
    (frames : List Frame) (ids : List Nat) : List DetectionResult :=
  fix_results frames ids 0 (gather_results detect frames ids)

/-! ### Concrete sample data used by witnesses and counterexamples -/

/-- A concrete 640x480 frame. -/
def sampleFrame : Frame := { width := 640, height := 480, pixels := 0 }

/-- A service in the RUNNING steady state right after `start_detection`
finished: counters reset, queue drained, default `result_buffer_size = 100`
and `skip_frames = 0` from `ServiceConfig.__post_init__`. -/
def runningInit : ServiceState :=
  { status := ServiceStatus.running
    is_running := true
    detector_loaded := true
    stream_connected := true
    has_task := true
    frame_count := 0
    processed_frame_count := 0
    error_count := 0
    results_queue := []
    result_buffer_size := 100
    skip_frames := 0
    pushed := [] }

/-- A detector backend whose inference raises on every frame. -/
def detectFail : Frame → Nat → Except String DetectionResult :=
  fun _ _ => Except.error "inference failed"

/-- A detector backend whose inference always succeeds and, like
`YOLOv11Detector.detect_frame`, stamps the result with the `frame_id`
argument it was called with. -/
def detectEcho : Frame → Nat → Except String DetectionResult :=
  fun f i =>
    Except.ok { frame_id := i, timestamp := 0, detections := [], frame_width := f.width,
                frame_height := f.height, processing_time_ms := 0, model_info_error := none }

/-! ### Helper lemmas about the detection loop -/

/-- One loop iteration, explicitly, in the `skip_frames = 0` configuration:
the frame counter is incremented, then the frame is processed; success
pushes the result, failure bumps the error counter and the loop continues
only while the counter is at most 10. -/
theorem detection_iteration_skip0 (detect : Frame → Nat → Except String DetectionResult)
    (st : ServiceState) (c : Nat) (f : Frame)
    (h1 : st.is_running = true) (h2 : st.skip_frames = 0) :
    detection_iteration detect st c f =
      match detect f (st.frame_count + 1) with
      | Except.ok r =>
          (({ st with
                frame_count := st.frame_count + 1
                processed_frame_count := st.processed_frame_count + 1
                results_queue := queue_put_drop st.result_buffer_size st.results_queue r
                pushed := st.pushed ++ [r] }, c), true)
      | Except.error _ =>
          (({ st with
                frame_count := st.frame_count + 1
                error_count := st.error_count + 1 }, c),
           decide (st.error_count + 1 ≤ 10)) := by
  cases hd : detect f (st.frame_count + 1) <;>
    simp [detection_iteration, h1, h2, hd]

/-- Fields the detection loop never writes (`status`, the configuration and
the running flag), plus the queue-length bound: for a positive buffer size
the loop keeps the results queue within capacity. -/
theorem detection_iteration_spec (detect : Frame → Nat → Except String DetectionResult)
    (st : ServiceState) (c : Nat) (f : Frame) :
    (detection_iteration detect st c f).1.1.result_buffer_size = st.result_buffer_size
  ∧ (detection_iteration detect st c f).1.1.status = st.status
  ∧ (detection_iteration detect st c f).1.1.is_running = st.is_running
  ∧ (detection_iteration detect st c f).1.1.skip_frames = st.skip_frames
  ∧ ((detection_iteration detect st c f).1.1.results_queue = st.results_queue ∨
      ∃ r, (detection_iteration detect st c f).1.1.results_queue
        = queue_put_drop st.result_buffer_size st.results_queue r) := by
  by_cases h1 : st.is_running = false
  · simp [detection_iteration, h1]
  · by_cases h2 : 0 < st.skip_frames
    · by_cases h3 : c + 1 ≤ st.skip_frames
      · simp [detection_iteration, h1, h2, h3]
      · cases hd : detect f (st.frame_count + 1) <;>
          simp [detection_iteration, h1, h2, h3, hd]
    · cases hd : detect f (st.frame_count + 1) <;>
        simp [detection_iteration, h1, h2, hd]

/-- Pushing keeps a bounded queue bounded. -/
theorem queue_put_drop_length_le (cap : Nat) (q : List DetectionResult) (r : DetectionResult)
    (hcap : 0 < cap) (hlen : q.length ≤ cap) :
    (queue_put_drop cap q r).length ≤ cap := by
  unfold queue_put_drop
  split
  · rename_i h
    rcases h with h | h
    · omega
    · simp
      omega
  · rename_i h
    simp
    omega

/-- Loop-level preservation: the whole run preserves `status`, the
configuration, the running flag, and keeps the queue within capacity. -/
theorem detection_loop_aux_spec (detect : Frame → Nat → Except String DetectionResult) :
    ∀ (frames : List Frame) (st : ServiceState) (c : Nat),
    (detection_loop_aux detect st c frames).1.result_buffer_size = st.result_buffer_size
  ∧ (detection_loop_aux detect st c frames).1.status = st.status
  ∧ (detection_loop_aux detect st c frames).1.is_running = st.is_running
  ∧ (detection_loop_aux detect st c frames).1.skip_frames = st.skip_frames
  ∧ (st.results_queue.length ≤ st.result_buffer_size → 0 < st.result_buffer_size →
      (detection_loop_aux detect st c frames).1.results_queue.length
        ≤ st.result_buffer_size) := by
  intro frames
  induction frames with
  | nil => intro st c; exact ⟨rfl, rfl, rfl, rfl, fun h _ => h⟩
  | cons f fs ih =>
    intro st c
    obtain ⟨hbuf, hstat, hrun, hskip, hq⟩ := detection_iteration_spec detect st c f
    rcases hout : detection_iteration detect st c f with ⟨⟨st', c'⟩, cont⟩
    rw [hout] at hbuf hstat hrun hskip hq
    simp only at hbuf hstat hrun hskip hq
    cases cont with
    | false =>
      simp only [detection_loop_aux, hout]
      refine ⟨hbuf, hstat, hrun, hskip, ?_⟩
      intro hlen hpos
      rcases hq with hq | ⟨r, hq⟩
      · rw [hq]; exact hlen
      · rw [hq]; exact queue_put_drop_length_le _ _ _ hpos hlen
    | true =>
      simp only [detection_loop_aux, hout]
      obtain ⟨ihbuf, ihstat, ihrun, ihskip, ihq⟩ := ih st' c'
      refine ⟨ihbuf.trans hbuf, ihstat.trans hstat, ihrun.trans hrun, ihskip.trans hskip, ?_⟩
      intro hlen hpos
      have hlen' : st'.results_queue.length ≤ st'.result_buffer_size := by
        rw [hbuf]
        rcases hq with hq | ⟨r, hq⟩
        · rw [hq]; exact hlen
        · rw [hq]; exact queue_put_drop_length_le _ _ _ hpos hlen
      have hpos' : 0 < st'.result_buffer_size := by rw [hbuf]; exact hpos
      have := ihq hlen' hpos'
      rw [hbuf] at this
      exact this

/-- With `skip_frames = 0` every frame the loop reads is either processed or
counted as an error, so the balance `frame_count = processed + errors` is an
invariant of the run. -/
theorem detection_loop_aux_balance (detect : Frame → Nat → Except String DetectionResult) :
    ∀ (frames : List Frame) (st : ServiceState) (c : Nat),
    st.is_running = true → st.skip_frames = 0 →
    st.frame_count = st.processed_frame_count + st.error_count →
    (detection_loop_aux detect st c frames).1.frame_count
      = (detection_loop_aux detect st c frames).1.processed_frame_count
        + (detection_loop_aux detect st c frames).1.error_count := by
  intro frames
  induction frames with
  | nil => intro st c _ _ h3; exact h3
  | cons f fs ih =>
    intro st c h1 h2 h3
    cases hd : detect f (st.frame_count + 1) with
    | ok r =>
      simp only [detection_loop_aux, detection_iteration_skip0 detect st c f h1 h2, hd]
      exact ih _ _ h1 h2 (by simp; omega)
    | error e =>
      by_cases hcont : st.error_count + 1 ≤ 10
      · simp only [detection_loop_aux, detection_iteration_skip0 detect st c f h1 h2, hd,
          decide_eq_true hcont]
        exact ih _ _ h1 h2 (by simp; omega)
      · simp only [detection_loop_aux, detection_iteration_skip0 detect st c f h1 h2, hd,
          decide_eq_false hcont]
        omega

/-! ## C8 — `stop_detection` is idempotent (`service.py` lines 147-176) -/

/-- C8: after a completed first `stop_detection` call from RUNNING the
service is IDLE and nothing was raised; the immediately following second
call returns the state entirely unchanged and raises nothing (and in
general any call while not RUNNING is such a no-op). -/
theorem stop_detection_idempotent (st : ServiceState) (h : st.status = ServiceStatus.running) :
    (stop_detection st).2 = none
  ∧ (stop_detection st).1.status = ServiceStatus.idle
  ∧ stop_detection (stop_detection st).1 = ((stop_detection st).1, none)
  ∧ (∀ s : ServiceState, s.status ≠ ServiceStatus.running → stop_detection s = (s, none)) := by
  have hgen : ∀ s : ServiceState, s.status ≠ ServiceStatus.running → stop_detection s = (s, none) := by
    intro s hs
    simp [stop_detection, hs]
  have h1 : (stop_detection st).2 = none := by
    simp only [stop_detection, h]
    split <;> simp_all
  have h2 : (stop_detection st).1.status = ServiceStatus.idle := by
    simp only [stop_detection, h]
    split <;> simp_all
  refine ⟨h1, h2, ?_, hgen⟩
  apply hgen
  rw [h2]
  intro hc
  exact ServiceStatus.noConfusion hc

/-- C8 witness: the theorem applied to the concrete RUNNING state. -/
theorem stop_detection_idempotent_witness :
    (stop_detection runningInit).2 = none
  ∧ (stop_detection runningInit).1.status = ServiceStatus.idle
  ∧ stop_detection (stop_detection runningInit).1 = ((stop_detection runningInit).1, none) := by
  obtain ⟨h1, h2, h3, _⟩ := stop_detection_idempotent runningInit (by rfl)
  exact ⟨h1, h2, h3⟩

/-! ## C9 — `start_detection` on a RUNNING service is a no-op
(`service.py` lines 102-145) -/

/-- C9: when the status is RUNNING, `start_detection` returns immediately:
no exception, and the returned state is the input state itself, so the
status, all counters, the results queue, the detector-loaded flag and the
stream-connection flag are unchanged, whatever the external load/connect
outcomes would have been. -/
theorem start_detection_running_noop (st : ServiceState) (load_ok connect_ok : Bool)
    (h : st.status = ServiceStatus.running) :
    start_detection load_ok connect_ok st = (st, none) := by
  simp [start_detection, h]

/-- C9 witness: the theorem applied to the concrete RUNNING state. -/
theorem start_detection_running_noop_witness :
    start_detection false false runningInit = (runningInit, none) :=
  start_detection_running_noop runningInit false false (by rfl)

/-! ## C10 — `frames_skipped` accounting (`service.py` lines 355-373) -/

/-- C10: `get_performance_stats` reports
`frames_skipped = total_frames_received - frames_processed` in every state,
and consequently — since with `skip_frames = 0` every read frame is either
processed or errored — after any run of the detection loop from a balanced
state the reported `frames_skipped` equals the error count: frames whose
detection failed are counted as skipped even though no skipping is
configured. -/
theorem frames_skipped_counts_errors (detect : Frame → Nat → Except String DetectionResult)
    (st : ServiceState) (frames : List Frame)
    (h1 : st.is_running = true) (h2 : st.skip_frames = 0)
    (h3 : st.frame_count = st.processed_frame_count + st.error_count) :
    (∀ s : ServiceState,
      (get_performance_stats s).frames_skipped
        = ((get_performance_stats s).total_frames_received : Int)
          - ((get_performance_stats s).frames_processed : Int))
  ∧ (get_performance_stats (detection_loop detect st frames).1).frames_skipped
      = ((detection_loop detect st frames).1.error_count : Int) := by
  constructor
  · intro s; rfl
  · have hb := detection_loop_aux_balance detect frames st 0 h1 h2 h3
    simp only [get_performance_stats, detection_loop] at *
    omega

/-- C10 witness: two frames, every detection fails, so both frames are
reported as skipped and both are errors. -/
theorem frames_skipped_counts_errors_witness :
    (get_performance_stats (detection_loop detectFail runningInit
        [sampleFrame, sampleFrame]).1).frames_skipped
      = ((detection_loop detectFail runningInit [sampleFrame, sampleFrame]).1.error_count : Int)
  ∧ (detection_loop detectFail runningInit [sampleFrame, sampleFrame]).1.error_count = 2 := by
  refine ⟨(frames_skipped_counts_errors detectFail runningInit [sampleFrame, sampleFrame]
    (by rfl) (by rfl) (by rfl)).2, by rfl⟩

/-! ## C3 — bounded drop-oldest result sink (`service.py` lines 247-256) -/

/-- C3: for a positive capacity, a push into a within-capacity sink keeps it
within capacity; a push into a full sink evicts exactly the oldest buffered
result (the queue head) and inserts the new one at the back; and along any
run of the detection loop the sink never exceeds its capacity at any
observation point (every intermediate state of a run is the final state of
the run over a prefix of the frames).  Blocking cannot arise: the push is a
total function of the state. -/
theorem result_sink_bounded (cap : Nat) (q : List DetectionResult) (r : DetectionResult)
    (hcap : 0 < cap) (hlen : q.length ≤ cap) :
    (queue_put_drop cap q r).length ≤ cap
  ∧ (q.length = cap → queue_put_drop cap q r = q.drop 1 ++ [r])
  ∧ (q.length = cap → (queue_put_drop cap q r).length = cap)
  ∧ (∀ (detect : Frame → Nat → Except String DetectionResult)
        (st : ServiceState) (c : Nat) (frames : List Frame),
      st.result_buffer_size = cap → st.results_queue.length ≤ cap →
      (detection_loop_aux detect st c frames).1.results_queue.length ≤ cap) := by
  refine ⟨queue_put_drop_length_le cap q r hcap hlen, ?_, ?_, ?_⟩
  · intro hfull
    unfold queue_put_drop
    rw [if_neg]
    omega
  · intro hfull
    unfold queue_put_drop
    rw [if_neg]
    · simp
      omega
    · omega
  · intro detect st c frames hbuf hlen'
    have := (detection_loop_aux_spec detect frames st c).2.2.2.2
    rw [hbuf] at this
    exact this hlen' hcap

/-- A concrete detection result carrying a given frame id, as `detectEcho`
builds it for `sampleFrame`. -/
def sampleResult (i : Nat) : DetectionResult :=
  { frame_id := i, timestamp := 0, detections := [], frame_width := 640,
    frame_height := 480, processing_time_ms := 0, model_info_error := none }

/-- C3 witness: capacity 2, a full sink `[r1, r2]`, pushing `r3` evicts
exactly `r1`. -/
theorem result_sink_bounded_witness :
    (queue_put_drop 2 [sampleResult 1, sampleResult 2] (sampleResult 3)).length ≤ 2
  ∧ queue_put_drop 2 [sampleResult 1, sampleResult 2] (sampleResult 3)
      = [sampleResult 2, sampleResult 3] := by
  have h := result_sink_bounded 2 [sampleResult 1, sampleResult 2] (sampleResult 3)
    (by decide) (by decide)
  refine ⟨h.1, ?_⟩
  rw [h.2.1 (by decide)]
  rfl

/-! ## C1 — processed count and pushed frame ids (`service.py` lines 204-291) -/

/-- Running the loop with a detector that always succeeds and stamps results
with the `frame_id` argument it receives (as `YOLOv11Detector.detect_frame`
does): every frame is processed, no error is counted, and the trace of
pushed results carries the frame ids `start+1, start+2, ...` in read
order, where `start` is the frame counter on entry. -/
theorem detection_loop_aux_all_ok (detect : Frame → Nat → Except String DetectionResult)
    (Hok : ∀ f i, ∃ r, detect f i = Except.ok r ∧ r.frame_id = i) :
    ∀ (frames : List Frame) (st : ServiceState) (c : Nat),
    st.is_running = true → st.skip_frames = 0 →
    (detection_loop_aux detect st c frames).1.processed_frame_count
        = st.processed_frame_count + frames.length
  ∧ (detection_loop_aux detect st c frames).1.frame_count
        = st.frame_count + frames.length
  ∧ (detection_loop_aux detect st c frames).1.error_count = st.error_count
  ∧ (detection_loop_aux detect st c frames).1.pushed.map DetectionResult.frame_id
        = st.pushed.map DetectionResult.frame_id
          ++ List.range' (st.frame_count + 1) frames.length := by
  intro frames
  induction frames with
  | nil => intro st c _ _; simp [detection_loop_aux]
  | cons f fs ih =>
    intro st c h1 h2
    obtain ⟨r, hd, hid⟩ := Hok f (st.frame_count + 1)
    simp only [detection_loop_aux, detection_iteration_skip0 detect st c f h1 h2, hd]
    obtain ⟨ih1, ih2, ih3, ih4⟩ := ih
      { st with
          frame_count := st.frame_count + 1
          processed_frame_count := st.processed_frame_count + 1
          results_queue := queue_put_drop st.result_buffer_size st.results_queue r
          pushed := st.pushed ++ [r] } c h1 h2
    refine ⟨by rw [ih1]; simp; omega, by rw [ih2]; simp; omega, by rw [ih3], ?_⟩
    rw [ih4]
    simp only [List.length_cons, List.range'_succ, List.map_append, List.map_cons,
      List.map_nil, hid, List.append_assoc, List.singleton_append]

/-- C1 (amended): for every frame sequence with `N` frames, zero detector
errors and `skip_frames = 0`, the processed-frame count equals `N`, the
error count stays 0, and the results pushed to the sink carry the frame ids
`1, 2, ..., N` exactly — strictly increasing, but starting at 1 (the loop
increments `_frame_count` before calling the detector), not at 0. -/
theorem frame_ids_start_at_one (detect : Frame → Nat → Except String DetectionResult)
    (st : ServiceState) (frames : List Frame)
    (Hok : ∀ f i, ∃ r, detect f i = Except.ok r ∧ r.frame_id = i)
    (h1 : st.is_running = true) (h2 : st.skip_frames = 0)
    (h3 : st.frame_count = 0) (h4 : st.processed_frame_count = 0)
    (h5 : st.error_count = 0) (h6 : st.pushed = []) :
    (detection_loop detect st frames).1.processed_frame_count = frames.length
  ∧ (detection_loop detect st frames).1.error_count = 0
  ∧ (detection_loop detect st frames).1.pushed.map DetectionResult.frame_id
      = List.range' 1 frames.length := by
  obtain ⟨g1, g2, g3, g4⟩ := detection_loop_aux_all_ok detect Hok frames st 0 h1 h2
  refine ⟨by rw [detection_loop, g1, h4, Nat.zero_add], by rw [detection_loop, g3, h5], ?_⟩
  rw [detection_loop, g4, h6, h3]
  simp

/-- C1 witness: three frames through the always-successful echoing detector
from the freshly started service. -/
theorem frame_ids_start_at_one_witness :
    (detection_loop detectEcho runningInit
        [sampleFrame, sampleFrame, sampleFrame]).1.processed_frame_count = 3
  ∧ (detection_loop detectEcho runningInit
        [sampleFrame, sampleFrame, sampleFrame]).1.error_count = 0
  ∧ (detection_loop detectEcho runningInit
        [sampleFrame, sampleFrame, sampleFrame]).1.pushed.map DetectionResult.frame_id
      = List.range' 1 3 := by
  exact frame_ids_start_at_one detectEcho runningInit [sampleFrame, sampleFrame, sampleFrame]
    (fun f i => ⟨_, rfl, rfl⟩) (by rfl) (by rfl) (by rfl) (by rfl) (by rfl) (by rfl)

/-- C1 counterexample: one frame, zero detector errors, `skip_frames = 0`.
The single pushed result carries frame id 1, which is not a subsequence of
`0..N-1 = [0]` and does not start at 0, refuting the claim as stated. -/
theorem frame_ids_start_at_one_counterexample :
    (detection_loop detectEcho runningInit [sampleFrame]).1.pushed.map DetectionResult.frame_id
      = [1]
  ∧ ¬ ((detection_loop detectEcho runningInit [sampleFrame]).1.pushed.map
        DetectionResult.frame_id).Sublist (List.range 1)
  ∧ (detection_loop detectEcho runningInit [sampleFrame]).1.processed_frame_count = 1 := by
  have he : (detection_loop detectEcho runningInit [sampleFrame]).1.pushed.map
      DetectionResult.frame_id = [1] := by rfl
  refine ⟨he, ?_, by rfl⟩
  rw [he]
  simp

/-! ## C2 — error-threshold exit (`service.py` lines 268-291) -/

/-- C2 (amended): once the per-frame error counter exceeds 10 — i.e.
reaches 11, not 10 — the loop `break`s: the frame in flight is the last one
read (`frame_count` advances exactly once, whatever frames remain) and the
loop performs no further reads.  The exit does not touch the service
status: the loop leaves `status` exactly as it was (it stays RUNNING; no
Running→Error transition happens on this path). -/
theorem error_threshold_exit (detect : Frame → Nat → Except String DetectionResult)
    (st : ServiceState) (f : Frame) (rest rest' : List Frame) (e : String)
    (h1 : st.is_running = true) (h2 : st.skip_frames = 0)
    (h3 : st.error_count = 10)
    (h4 : detect f (st.frame_count + 1) = Except.error e) :
    detection_loop detect st (f :: rest) = detection_loop detect st (f :: rest')
  ∧ (detection_loop detect st (f :: rest)).2 = true
  ∧ (detection_loop detect st (f :: rest)).1.error_count = 11
  ∧ (detection_loop detect st (f :: rest)).1.frame_count = st.frame_count + 1
  ∧ (detection_loop detect st (f :: rest)).1.status = st.status := by
  have hstop : ¬ (st.error_count + 1 ≤ 10) := by omega
  refine ⟨?_, ?_, ?_, ?_, ?_⟩ <;>
    simp only [detection_loop, detection_loop_aux,
      detection_iteration_skip0 detect st 0 f h1 h2, h4, decide_eq_false hstop] <;>
    omega

/-- C2 witness: a state that already has 10 errors; the next failing frame
stops the loop at 11 errors with the status untouched, regardless of the
frames behind it. -/
theorem error_threshold_exit_witness :
    detection_loop detectFail { runningInit with error_count := 10 }
        [sampleFrame, sampleFrame, sampleFrame]
      = detection_loop detectFail { runningInit with error_count := 10 } [sampleFrame]
  ∧ (detection_loop detectFail { runningInit with error_count := 10 }
        [sampleFrame, sampleFrame, sampleFrame]).2 = true
  ∧ (detection_loop detectFail { runningInit with error_count := 10 }
        [sampleFrame, sampleFrame, sampleFrame]).1.error_count = 11
  ∧ (detection_loop detectFail { runningInit with error_count := 10 }
        [sampleFrame, sampleFrame, sampleFrame]).1.frame_count = 0 + 1
  ∧ (detection_loop detectFail { runningInit with error_count := 10 }
        [sampleFrame, sampleFrame, sampleFrame]).1.status = ServiceStatus.running := by
  exact error_threshold_exit detectFail { runningInit with error_count := 10 }
    sampleFrame [sampleFrame, sampleFrame] [] "inference failed"
    (by rfl) (by rfl) (by rfl) (by rfl)

/-- C2 counterexample: a fresh RUNNING service fed 12 frames on which every
detection fails.  After the counter reaches 10 the loop still reads an 11th
frame (so reaching 10 does not stop it), it exits at 11 errors, and the
final status is RUNNING, not ERROR — the Running→Error transition claimed
for this scenario never happens. -/
theorem error_threshold_exit_counterexample :
    (detection_loop detectFail runningInit (List.replicate 12 sampleFrame)).1.error_count = 11
  ∧ (detection_loop detectFail runningInit (List.replicate 12 sampleFrame)).1.frame_count = 11
  ∧ (detection_loop detectFail runningInit (List.replicate 12 sampleFrame)).1.status
      = ServiceStatus.running
  ∧ (detection_loop detectFail runningInit (List.replicate 12 sampleFrame)).1.status
      ≠ ServiceStatus.error := by
  refine ⟨by rfl, by rfl, by rfl, ?_⟩
  intro h
  exact ServiceStatus.noConfusion ((by rfl :
    (detection_loop detectFail runningInit (List.replicate 12 sampleFrame)).1.status
      = ServiceStatus.running) ▸ h)

/-! ## C4 — least-loaded scheduling keeps the counters balanced
(`multi_gpu_detector.py` lines 167-219) -/

/-- Python `min` with a key: the fold picks an element of the list that is
in the list and whose key is minimal. -/
theorem foldl_min_spec (key : Nat → Nat) :
    ∀ (ds : List Nat) (d : Nat),
    (ds.foldl (fun best x => if key x < key best then x else best) d) ∈ d :: ds
  ∧ ∀ x ∈ d :: ds,
      key (ds.foldl (fun best x => if key x < key best then x else best) d) ≤ key x := by
  intro ds
  induction ds with
  | nil => intro d; simp
  | cons a ds ih =>
    intro d
    obtain ⟨hmem, hmin⟩ := ih (if key a < key d then a else d)
    have hmem' : (if key a < key d then a else d) ∈ d :: a :: ds := by
      by_cases hc : key a < key d <;> simp [hc]
    have hda : key (if key a < key d then a else d) ≤ key d
        ∧ key (if key a < key d then a else d) ≤ key a := by
      by_cases hc : key a < key d <;> simp [hc] <;> omega
    constructor
    · simp only [List.foldl_cons]
      rcases List.mem_cons.mp hmem with h | h
      · rw [h]; exact hmem'
      · exact List.mem_cons_of_mem _ (List.mem_cons_of_mem _ h)
    · intro x hx
      simp only [List.foldl_cons]
      rcases List.mem_cons.mp hx with h | hx'
      · subst h
        exact le_trans (hmin _ (List.mem_cons_self _ _)) hda.1
      · rcases List.mem_cons.mp hx' with h | h
        · subst h
          exact le_trans (hmin _ (List.mem_cons_self _ _)) hda.2
        · exact hmin _ (List.mem_cons_of_mem _ h)

/-- `py_min_by` on a nonempty list returns a member attaining the minimal
key. -/
theorem py_min_by_spec (key : Nat → Nat) (l : List Nat) (hl : l ≠ []) :
    py_min_by key l ∈ l ∧ ∀ x ∈ l, key (py_min_by key l) ≤ key x := by
  cases l with
  | nil => exact absurd rfl hl
  | cons d ds => exact foldl_min_spec key ds d

/-- One dispatch preserves counter balance: the least-loaded policy selects
a device with minimal counter, a successful dispatch bumps it by one, and a
failed dispatch changes nothing. -/
theorem multi_gpu_dispatch_balance (devs : List Nat) (counts : Nat → Nat)
    (sid : Nat) (ok : Bool) (h2 : 2 ≤ devs.length)
    (hbal : ∀ d ∈ devs, ∀ e ∈ devs, counts d ≤ counts e + 1) :
    ∀ d ∈ devs, ∀ e ∈ devs,
      multi_gpu_dispatch true true devs counts sid ok d
        ≤ multi_gpu_dispatch true true devs counts sid ok e + 1 := by
  cases ok with
  | false => simpa [multi_gpu_dispatch] using hbal
  | true =>
    have hlen : ¬ (¬ True ∨ devs.length = 1) := by
      simp
      omega
    have hne : devs ≠ [] := by
      intro h
      rw [h] at h2
      simp at h2
    have hsel : select_device_for_inference true true devs counts sid
        = py_min_by counts devs := by
      simp [select_device_for_inference, show devs.length ≠ 1 by omega]
    obtain ⟨hsmem, hsmin⟩ := py_min_by_spec counts devs hne
    intro d hd e he
    have hgoal : (if d = py_min_by counts devs then counts d + 1 else counts d)
        ≤ (if e = py_min_by counts devs then counts e + 1 else counts e) + 1 := by
      by_cases hds : d = py_min_by counts devs
      · rw [if_pos hds]
        by_cases hes : e = py_min_by counts devs
        · rw [if_pos hes, hds, hes]
          omega
        · rw [if_neg hes]
          have h5 := hsmin e he
          rw [hds]
          omega
      · rw [if_neg hds]
        by_cases hes : e = py_min_by counts devs
        · rw [if_pos hes]
          have h5 := hbal d hd (py_min_by counts devs) hsmem
          rw [hes]
          omega
        · rw [if_neg hes]
          have h5 := hbal d hd e he
          omega
    simpa [multi_gpu_dispatch, hsel] using hgoal

/-- C4: with least-loaded scheduling over `k ≥ 2` devices — each dispatch
selecting a device with minimal cumulative inference counter and
incrementing it only on success — after every sequence of dispatches the
counters of any two devices differ by at most one:
`max(count) - min(count) ≤ 1`. -/
theorem least_loaded_balanced (devs : List Nat) (h2 : 2 ≤ devs.length)
    (jobs : List (Nat × Bool)) :
    ∀ d ∈ devs, ∀ e ∈ devs,
      run_dispatches true true devs (fun _ => 0) jobs d
        - run_dispatches true true devs (fun _ => 0) jobs e ≤ 1 := by
  have key : ∀ (js : List (Nat × Bool)) (counts : Nat → Nat),
      (∀ d ∈ devs, ∀ e ∈ devs, counts d ≤ counts e + 1) →
      ∀ d ∈ devs, ∀ e ∈ devs,
        run_dispatches true true devs counts js d
          ≤ run_dispatches true true devs counts js e + 1 := by
    intro js
    induction js with
    | nil => intro counts hbal; exact hbal
    | cons j js ih =>
      intro counts hbal
      rcases j with ⟨sid, ok⟩
      exact ih _ (multi_gpu_dispatch_balance devs counts sid ok h2 hbal)
  intro d hd e he
  have := key jobs (fun _ => 0) (fun _ _ _ _ => by simp) d hd e he
  omega

/-- C4 witness: two devices, five dispatches (one of them failing); the
counters end within one of each other. -/
theorem least_loaded_balanced_witness :
    run_dispatches true true [0, 1] (fun _ => 0)
        [(0, true), (3, true), (1, true), (2, false), (0, true)] 0
      - run_dispatches true true [0, 1] (fun _ => 0)
        [(0, true), (3, true), (1, true), (2, false), (0, true)] 1 ≤ 1 :=
  least_loaded_balanced [0, 1] (by decide)
    [(0, true), (3, true), (1, true), (2, false), (0, true)]
    0 (by decide) 1 (by decide)

/-! ## C5 — frame-read retry semantics (`streams/rtsp_provider.py` lines
131-153, `streams/file_provider.py` lines 176-190) -/

/-- As long as no run of consecutive failed reads reaches `retry_attempts`,
the RTSP iterator yields exactly the successfully read frames: failures are
retried, and a success resets the retry counter. -/
theorem rtsp_iterate_no_early_stop (a : Nat) :
    ∀ (reads : List (Option Frame)) (r : Nat), r < a →
    no_long_fail_run a r reads = true →
    rtsp_frame_iterate a r reads = reads.filterMap id := by
  intro reads
  induction reads with
  | nil => intro r _ _; simp [rtsp_frame_iterate]
  | cons x reads ih =>
    intro r hr hno
    cases x with
    | some f =>
      have hno' : no_long_fail_run a 0 reads = true := by
        simpa [no_long_fail_run] using hno
      simp [rtsp_frame_iterate, Nat.not_le.mpr hr, ih 0 (by omega) hno']
    | none =>
      have hno' : r + 1 < a ∧ no_long_fail_run a (r + 1) reads = true := by
        simpa [no_long_fail_run] using hno
      simp [rtsp_frame_iterate, Nat.not_le.mpr hr, Nat.not_le.mpr hno'.1,
        ih (r + 1) hno'.1 hno'.2]

/-- Once the counter would reach `retry_attempts`, a block of consecutive
failed reads terminates the RTSP iterator: nothing after it is read. -/
theorem rtsp_iterate_aborts (a : Nat) :
    ∀ (k r : Nat) (rs : List (Option Frame)), a ≤ r + k →
    rtsp_frame_iterate a r (List.replicate k none ++ rs) = [] := by
  intro k
  induction k with
  | zero =>
    intro r rs ha
    cases rs with
    | nil => simp [rtsp_frame_iterate]
    | cons x rs =>
      simp only [List.replicate, List.nil_append]
      simp [rtsp_frame_iterate, show a ≤ r by omega]
  | succ k ih =>
    intro r rs ha
    simp only [List.replicate_succ, List.cons_append]
    by_cases hr : a ≤ r
    · simp [rtsp_frame_iterate, hr]
    · by_cases hr1 : a ≤ r + 1
      · simp [rtsp_frame_iterate, hr, hr1]
      · simp [rtsp_frame_iterate, hr, hr1, ih (r + 1) rs (by omega)]

/-- C5 (amended): the RTSP provider's iterator behaves as claimed — each
failed read increments the retry counter, the sequence terminates only
after `retry_attempts` consecutive failures, and the counter resets to zero
on the next successful read — but the file provider's iterator has no retry
counter at all: when not looping it terminates on the very first failed
read. -/
theorem stream_iterator_retry (a : Nat) (f : Frame) (reads rs : List (Option Frame))
    (h0 : 0 < a) (hno : no_long_fail_run a 0 reads = true) :
    rtsp_frame_iterate a 0 (some f :: reads) = f :: rtsp_frame_iterate a 0 reads
  ∧ rtsp_frame_iterate a 0 reads = reads.filterMap id
  ∧ rtsp_frame_iterate a 0 (List.replicate a none ++ rs) = []
  ∧ file_frame_iterate false (none :: reads) = [] := by
  refine ⟨?_, rtsp_iterate_no_early_stop a reads 0 h0 hno,
    rtsp_iterate_aborts a a 0 rs (by omega), by simp [file_frame_iterate]⟩
  simp [rtsp_frame_iterate, Nat.not_le.mpr h0]

/-- C5 witness: `retry_attempts = 3` (the `StreamConfig` default), a read
sequence with an isolated failure, a prefixed success, and a 3-failure
block. -/
theorem stream_iterator_retry_witness :
    rtsp_frame_iterate 3 0 (some sampleFrame :: [none, some sampleFrame])
      = sampleFrame :: rtsp_frame_iterate 3 0 [none, some sampleFrame]
  ∧ rtsp_frame_iterate 3 0 [none, some sampleFrame]
      = List.filterMap id [none, some sampleFrame]
  ∧ rtsp_frame_iterate 3 0 (List.replicate 3 none ++ [some sampleFrame]) = []
  ∧ file_frame_iterate false (none :: [none, some sampleFrame]) = [] := by
  exact stream_iterator_retry 3 sampleFrame [none, some sampleFrame] [some sampleFrame]
    (by decide) (by decide)

/-- C5 counterexample: with `retry_attempts = 3` the claim says a single
failed read must not terminate the sequence, yet the file provider's
iterator (not looping) returns no frame from `[failure, success, success]`
— it terminated after one failed read.  The RTSP iterator on the same reads
yields both frames, exhibiting the divergence between the two providers. -/
theorem stream_iterator_retry_counterexample :
    file_frame_iterate false [none, some sampleFrame, some sampleFrame] = []
  ∧ rtsp_frame_iterate 3 0 [none, some sampleFrame, some sampleFrame]
      = [sampleFrame, sampleFrame] := by
  exact ⟨rfl, rfl⟩

/-! ## C6 — protocol inference from the URL (`core/factory.py` lines
85-104) -/

/-- `List.isPrefixOf` succeeds exactly on prefixes (append
decompositions). -/
theorem isPrefixOf_exists_append (l : List Char) :
    ∀ u : List Char, l.isPrefixOf u = true ↔ ∃ t, u = l ++ t := by
  induction l with
  | nil =>
    intro u
    simp [List.isPrefixOf]
  | cons a l ih =>
    intro u
    cases u with
    | nil =>
      simp [List.isPrefixOf]
    | cons b u =>
      simp only [List.isPrefixOf, Bool.and_eq_true, beq_iff_eq, ih u, List.cons_append,
        List.cons.injEq]
      constructor
      · rintro ⟨rfl, t, rfl⟩
        exact ⟨t, rfl, rfl⟩
      · rintro ⟨t, rfl, rfl⟩
        exact ⟨rfl, t, rfl⟩

/-- A URL starting with one of the four wire schemes contains a slash, so
it is path-like in the sense of the FILE test. -/
theorem scheme_implies_path_like (u : List Char) :
    (rtspScheme.isPrefixOf u = true → is_path_like u = true)
  ∧ (rtmpScheme.isPrefixOf u = true → is_path_like u = true)
  ∧ (httpScheme.isPrefixOf u = true → is_path_like u = true)
  ∧ (httpsScheme.isPrefixOf u = true → is_path_like u = true) := by
  refine ⟨fun h => ?_, fun h => ?_, fun h => ?_, fun h => ?_⟩ <;>
  · obtain ⟨t, rfl⟩ := (isPrefixOf_exists_append _ u).mp h
    rfl

/-- The four scheme tests are pairwise exclusive (they differ within the
first five characters). -/
theorem scheme_tests_exclusive (u : List Char) :
    (rtmpScheme.isPrefixOf u = true → rtspScheme.isPrefixOf u = false)
  ∧ (httpScheme.isPrefixOf u = true →
      rtspScheme.isPrefixOf u = false ∧ rtmpScheme.isPrefixOf u = false)
  ∧ (httpsScheme.isPrefixOf u = true →
      rtspScheme.isPrefixOf u = false ∧ rtmpScheme.isPrefixOf u = false
        ∧ httpScheme.isPrefixOf u = false) := by
  refine ⟨fun h => ?_, fun h => ⟨?_, ?_⟩, fun h => ⟨?_, ?_, ?_⟩⟩ <;>
  · obtain ⟨t, rfl⟩ := (isPrefixOf_exists_append _ u).mp h
    rfl

/-- C6: `_detect_protocol_from_url` maps (case-insensitively) a URL
starting with `rtsp://` to RTSP, `rtmp://` to RTMP, `http://` to HTTP,
`https://` to HTTPS, a path-like URL (a `file://` prefix, or any slash or
backslash) matching no wire scheme to FILE, and any URL matching none of
these raises the `ConfigurationException` naming the URL.  Since every wire
scheme contains a slash, "matches no scheme" reduces to "is not path-like"
for the failure case. -/
theorem protocol_detection_cases (url : List Char) :
    (rtspScheme.isPrefixOf (url.map Char.toLower) = true →
        detect_protocol_from_url url = Except.ok StreamProtocol.rtsp)
  ∧ (rtmpScheme.isPrefixOf (url.map Char.toLower) = true →
        detect_protocol_from_url url = Except.ok StreamProtocol.rtmp)
  ∧ (httpScheme.isPrefixOf (url.map Char.toLower) = true →
        detect_protocol_from_url url = Except.ok StreamProtocol.http)
  ∧ (httpsScheme.isPrefixOf (url.map Char.toLower) = true →
        detect_protocol_from_url url = Except.ok StreamProtocol.https)
  ∧ (is_path_like (url.map Char.toLower) = true →
      rtspScheme.isPrefixOf (url.map Char.toLower) = false →
      rtmpScheme.isPrefixOf (url.map Char.toLower) = false →
      httpScheme.isPrefixOf (url.map Char.toLower) = false →
      httpsScheme.isPrefixOf (url.map Char.toLower) = false →
        detect_protocol_from_url url = Except.ok StreamProtocol.file)
  ∧ (is_path_like (url.map Char.toLower) = false →
        detect_protocol_from_url url = Except.error url) := by
  refine ⟨fun h1 => ?_, fun h2 => ?_, fun h3 => ?_, fun h4 => ?_,
    fun hp h1 h2 h3 h4 => ?_, fun hp => ?_⟩
  · simp [detect_protocol_from_url, h1]
  · have hx := (scheme_tests_exclusive (url.map Char.toLower)).1 h2
    simp [detect_protocol_from_url, h2, hx]
  · obtain ⟨hx1, hx2⟩ := (scheme_tests_exclusive (url.map Char.toLower)).2.1 h3
    simp [detect_protocol_from_url, h3, hx1, hx2]
  · obtain ⟨hx1, hx2, hx3⟩ := (scheme_tests_exclusive (url.map Char.toLower)).2.2 h4
    simp [detect_protocol_from_url, h4, hx1, hx2, hx3]
  · simp [detect_protocol_from_url, hp, h1, h2, h3, h4]
  · have hs := scheme_implies_path_like (url.map Char.toLower)
    have h1 : rtspScheme.isPrefixOf (url.map Char.toLower) = false := by
      cases hc : rtspScheme.isPrefixOf (url.map Char.toLower)
      · rfl
      · rw [hs.1 hc] at hp; exact Bool.noConfusion hp
    have h2 : rtmpScheme.isPrefixOf (url.map Char.toLower) = false := by
      cases hc : rtmpScheme.isPrefixOf (url.map Char.toLower)
      · rfl
      · rw [hs.2.1 hc] at hp; exact Bool.noConfusion hp
    have h3 : httpScheme.isPrefixOf (url.map Char.toLower) = false := by
      cases hc : httpScheme.isPrefixOf (url.map Char.toLower)
      · rfl
      · rw [hs.2.2.1 hc] at hp; exact Bool.noConfusion hp
    have h4 : httpsScheme.isPrefixOf (url.map Char.toLower) = false := by
      cases hc : httpsScheme.isPrefixOf (url.map Char.toLower)
      · rfl
      · rw [hs.2.2.2 hc] at hp; exact Bool.noConfusion hp
    simp [detect_protocol_from_url, hp, h1, h2, h3, h4]

/-- C6 witness: one concrete URL per branch, including a
mixed-case scheme, a Windows-style path, and a scheme-less, slash-less URL
for the failure branch. -/
theorem protocol_detection_cases_witness :
    detect_protocol_from_url "RTSP://cam/1".toList = Except.ok StreamProtocol.rtsp
  ∧ detect_protocol_from_url "rtmp://cam/live".toList = Except.ok StreamProtocol.rtmp
  ∧ detect_protocol_from_url "http://cam/mjpeg".toList = Except.ok StreamProtocol.http
  ∧ detect_protocol_from_url "https://cam/mjpeg".toList = Except.ok StreamProtocol.https
  ∧ detect_protocol_from_url "C:\\videos\\a.mp4".toList = Except.ok StreamProtocol.file
  ∧ detect_protocol_from_url "camera0".toList = Except.error "camera0".toList := by
  refine ⟨(protocol_detection_cases _).1 (by decide),
    (protocol_detection_cases _).2.1 (by decide),
    (protocol_detection_cases _).2.2.1 (by decide),
    (protocol_detection_cases _).2.2.2.1 (by decide),
    (protocol_detection_cases _).2.2.2.2.1 (by decide) (by decide) (by decide)
      (by decide) (by decide),
    (protocol_detection_cases _).2.2.2.2.2 (by decide)⟩

/-! ## C7 — batch detection isolates per-item failures
(`detectors/yolo_detector.py` lines 352-388) -/

/-- What `detect_batch` makes of one item of the gathered results list at
index `j`: a successful result passes through, a captured exception is
replaced by the synthetic empty result for index `j`. -/
def batch_item (frames : List Frame) (ids : List Nat) (j : Nat)
    (x : Except String DetectionResult) : DetectionResult :=
  match x with
  | Except.ok r => r
  | Except.error e => synth_failed_result frames ids j e

/-- `fix_results` is a length-preserving per-index map. -/
theorem fix_results_length (frames : List Frame) (ids : List Nat) :
    ∀ (rs : List (Except String DetectionResult)) (k : Nat),
    (fix_results frames ids k rs).length = rs.length := by
  intro rs
  induction rs with
  | nil => intro k; rfl
  | cons x rest ih =>
    intro k
    cases x with
    | ok r => simp [fix_results, ih]
    | error e => simp [fix_results, ih]

/-- Element `i` of `fix_results` is `batch_item` of element `i` of the
gathered results, at absolute index `k + i`. -/
theorem fix_results_getElem? (frames : List Frame) (ids : List Nat) :
    ∀ (rs : List (Except String DetectionResult)) (k i : Nat),
    (fix_results frames ids k rs)[i]? = rs[i]?.map (batch_item frames ids (k + i)) := by
  intro rs
  induction rs with
  | nil => intro k i; simp [fix_results]
  | cons x rest ih =>
    intro k i
    cases i with
    | zero =>
      cases x with
      | ok r => simp [fix_results, batch_item]
      | error e => simp [fix_results, batch_item]
    | succ i =>
      have hidx : k + (i + 1) = (k + 1) + i := by omega
      cases x with
      | ok r =>
        simp only [fix_results, List.getElem?_cons_succ, ih (k + 1) i, hidx]
      | error e =>
        simp only [fix_results, List.getElem?_cons_succ, ih (k + 1) i, hidx]

/-- Positional lookup in a zip of two lists. -/
theorem zip_getElem?_of_both (frames : List Frame) (ids : List Nat) (i : Nat)
    (f : Frame) (j : Nat) (hf : frames[i]? = some f) (hj : ids[i]? = some j) :
    (frames.zip ids)[i]? = some (f, j) :=
  List.getElem?_zip_eq_some.mpr ⟨hf, hj⟩

/-- C7: for equal-length frame and id lists, `detect_batch` returns one
element per input frame; element `i` is fully determined by frame `i`, id
`i` and the outcome of `detect` on that single pair — so a raising frame
cannot affect any sibling — and a frame whose detection raised yields an
empty-detections result carrying that frame's id and the error message in
its model metadata. -/
theorem detect_batch_isolates (detect : Frame → Nat → Except String DetectionResult)
    (frames : List Frame) (ids : List Nat) (hlen : ids.length = frames.length) :
    (detect_batch detect frames ids).length = frames.length
  ∧ (∀ (i : Nat) (f : Frame) (j : Nat), frames[i]? = some f → ids[i]? = some j →
      (detect_batch detect frames ids)[i]? = some (batch_item frames ids i (detect f j)))
  ∧ (∀ (i : Nat) (f : Frame) (j : Nat) (e : String),
      frames[i]? = some f → ids[i]? = some j → detect f j = Except.error e →
      ∃ r, (detect_batch detect frames ids)[i]? = some r ∧
        r.frame_id = j ∧ r.detections = [] ∧ r.model_info_error = some e) := by
  have hitem : ∀ (i : Nat) (f : Frame) (j : Nat), frames[i]? = some f → ids[i]? = some j →
      (detect_batch detect frames ids)[i]? = some (batch_item frames ids i (detect f j)) := by
    intro i f j hf hj
    rw [detect_batch, fix_results_getElem?, gather_results, List.getElem?_map,
      zip_getElem?_of_both frames ids i f j hf hj]
    simp
  refine ⟨?_, hitem, ?_⟩
  · rw [detect_batch, fix_results_length, gather_results, List.length_map,
      List.length_zip, hlen, Nat.min_self]
  · intro i f j e hf hj he
    refine ⟨synth_failed_result frames ids i e, ?_, ?_, rfl, rfl⟩
    · rw [hitem i f j hf hj, he]
      rfl
    · show ids.getD i 0 = j
      rw [List.getD_eq_getElem?_getD, hj]
      rfl

/-- C7 witness: two frames, the second one's detection raises; the batch
returns two results, the first untouched, the second a synthetic
empty-detections result carrying id 7 and the error message. -/
theorem detect_batch_isolates_witness :
    (detect_batch (fun f i => if i = 7 then Except.error "bad frame" else detectEcho f i)
        [sampleFrame, sampleFrame] [5, 7]).length = 2
  ∧ (detect_batch (fun f i => if i = 7 then Except.error "bad frame" else detectEcho f i)
        [sampleFrame, sampleFrame] [5, 7])[0]?
      = some (batch_item [sampleFrame, sampleFrame] [5, 7] 0
          ((fun (f : Frame) (i : Nat) =>
            if i = 7 then Except.error "bad frame" else detectEcho f i) sampleFrame 5))
  ∧ ∃ r, (detect_batch (fun f i => if i = 7 then Except.error "bad frame" else detectEcho f i)
        [sampleFrame, sampleFrame] [5, 7])[1]? = some r
      ∧ r.frame_id = 7 ∧ r.detections = [] ∧ r.model_info_error = some "bad frame" := by
  obtain ⟨h1, h2, h3⟩ := detect_batch_isolates
    (fun f i => if i = 7 then Except.error "bad frame" else detectEcho f i)
    [sampleFrame, sampleFrame] [5, 7] (by decide)
  exact ⟨h1, h2 0 sampleFrame 5 (by rfl) (by rfl),
    h3 1 sampleFrame 7 "bad frame" (by rfl) (by rfl) (by rfl)⟩

end RealtimeAI
